import Mathlib

/-!
Verification development for the core language pipeline of the repository:
lexer (src/src/lexer/lexer.ts), recursive-descent parser (src/src/parser/parser.ts),
static type checker (src/unnamed/part_011) and tree-walking interpreter
(src/src/interpreter/interpreter.ts).

The TypeScript sources are embedded shallowly: classes become inductive types,
methods become functions, the mutable `this.environment` / scope stack becomes
explicitly threaded state, thrown exceptions become an explicit error channel
that is caught exactly where the source catches it, and the host `number` type
is modelled as the exact rationals `ℚ` (all programs appearing in the claims
use small integer arithmetic, where the host arithmetic is exact).

Loops and run-time recursion through function values are given a fuel
parameter: every mutually recursive function takes a fuel argument and passes
a strictly smaller one to each callee; fuel exhaustion is reported through a
dedicated result that no claim scenario reaches (concrete runs are given ample
fuel, and universally quantified theorems hold for every fuel).

The source files in src/ are fragments of a concatenated document and a few
interior lines (mostly single guard conditions) are elided.  Wherever such an
elided line is load-bearing, the definition carries a doc comment starting
with `Modelled from the spec:` naming what is missing and which spec sentence
it was restored from.
-/

namespace PP

/-- Token kinds of the lexer, from `enum TokenType` in src/src/lexer/lexer.ts. -/
inductive TokenType where
  | NUMBER | STRING | BOOLEAN
  | IDENTIFIER
  | LET | CONST | FN | IF | ELSE | MATCH | TYPE | ENUM | STRUCT | IMPL | ASYNC | AWAIT
  | ASSIGN | PLUS | MINUS | MULTIPLY | DIVIDE | EQUAL | NOT_EQUAL | LESS | GREATER | ARROW | FAT_ARROW
  | LPAREN | RPAREN | LBRACE | RBRACE | LBRACKET | RBRACKET | COMMA | SEMICOLON | COLON | DOT | PIPE
  | EOF | NEWLINE
deriving DecidableEq, Repr

/-- Token record, from `interface Token` in src/src/lexer/lexer.ts. -/
structure Token where
  type : TokenType
  value : String
  line : Nat
  column : Nat
deriving DecidableEq, Repr

/-- Character class of the regular expression `/\d/` used by the lexer. -/
def isDigitChar (c : Char) : Bool := '0' ≤ c && c ≤ '9'

/-- Character class of `/[a-zA-Z_]/` (identifier start). -/
def isIdentStart (c : Char) : Bool :=
  ('a' ≤ c && c ≤ 'z') || ('A' ≤ c && c ≤ 'Z') || c == '_'

/-- Character class of `/[a-zA-Z0-9_]/` (identifier continuation). -/
def isIdentChar (c : Char) : Bool := isIdentStart c || isDigitChar c

/-- Character class of `/[\d.]/` used by `readNumber` (digits and dots). -/
def isNumChar (c : Char) : Bool := isDigitChar c || c == '.'

/-- Numeric value of a digit character. -/
def digitVal (c : Char) : Nat := c.toNat - '0'.toNat

/-- Accumulates a digit list into a natural number (base 10). -/
def digitsToNat : List Char → Nat → Nat
  | [], acc => acc
  | c :: cs, acc => digitsToNat cs (acc * 10 + digitVal c)

/-- Modelled from the spec: the parser builds number literals with the host
`parseFloat` (src/src/parser/parser.ts line 228), whose exact float semantics
is outside the embedding; on the token shapes `readNumber` produces (a digit
followed by digits and dots) `parseFloat` reads the integer part and the
digits after the first dot as the fractional part, which is what this
function computes over `ℚ`. -/
def parseNumber (s : String) : ℚ :=
  let cs := s.toList
  let intPart := cs.takeWhile isDigitChar
  let restPart := cs.dropWhile isDigitChar
  match restPart with
  | '.' :: rest =>
    let frac := rest.takeWhile isDigitChar
    (digitsToNat intPart 0 : ℚ) + (digitsToNat frac 0 : ℚ) / ((10 : ℚ) ^ frac.length)
  | _ => (digitsToNat intPart 0 : ℚ)

/-- Lexer errors, from the `throw new Error(...)` sites in the Lexer class.
`fuelExhausted` is an artifact of the fuel-based embedding of the scan loop
and is unreachable when the fuel exceeds the input length. -/
inductive LexErr where
  | unexpectedCharacter (c : Char) (line column : Nat)
  | unterminatedString (line : Nat)
  | fuelExhausted
deriving DecidableEq, Repr

/-- Lexer cursor state: the remaining source characters plus the line/column
counters of the Lexer class (the absolute `position` of the source is
represented by consuming characters off the front of the list). -/
structure LexSt where
  rest : List Char
  line : Nat
  column : Nat
deriving Repr

/-- Builds a token the way `Lexer.makeToken` does: the recorded column is the
current column minus the token text length. -/
def makeToken (type : TokenType) (value : String) (line column : Nat) : Token :=
  { type := type, value := value, line := line, column := column - value.length }

/-- Keyword table of `Lexer.getKeywordTokenType`. -/
def getKeywordTokenType (value : String) : Option TokenType :=
  if value = "let" then some .LET
  else if value = "const" then some .CONST
  else if value = "fn" then some .FN
  else if value = "if" then some .IF
  else if value = "else" then some .ELSE
  else if value = "match" then some .MATCH
  else if value = "type" then some .TYPE
  else if value = "enum" then some .ENUM
  else if value = "struct" then some .STRUCT
  else if value = "impl" then some .IMPL
  else if value = "async" then some .ASYNC
  else if value = "await" then some .AWAIT
  else if value = "true" then some .BOOLEAN
  else if value = "false" then some .BOOLEAN
  else none

/-- Single-character operator table of `Lexer.getSingleCharTokenType`.
Note there is no two-character `<=` anywhere in the lexer: `<` and `>` are
single-character tokens only. -/
def getSingleCharTokenType (c : Char) : Option TokenType :=
  if c = '=' then some .ASSIGN
  else if c = '+' then some .PLUS
  else if c = '-' then some .MINUS
  else if c = '*' then some .MULTIPLY
  else if c = '/' then some .DIVIDE
  else if c = '<' then some .LESS
  else if c = '>' then some .GREATER
  else if c = '(' then some .LPAREN
  else if c = ')' then some .RPAREN
  else if c = '\x7b' then some .LBRACE
  else if c = '\x7d' then some .RBRACE
  else if c = '[' then some .LBRACKET
  else if c = ']' then some .RBRACKET
  else if c = ',' then some .COMMA
  else if c = ';' then some .SEMICOLON
  else if c = ':' then some .COLON
  else if c = '.' then some .DOT
  else if c = '|' then some .PIPE
  else none

/-- Two-character operator table of `Lexer.getTwoCharTokenType` (lines
259-268 of src/src/lexer/lexer.ts, intact in the source): only `==`, `!=`,
`->` and `=>` exist; in particular `<=` is absent. -/
def getTwoCharTokenType (a b : Char) : Option TokenType :=
  if a = '=' && b = '=' then some .EQUAL
  else if a = '!' && b = '=' then some .NOT_EQUAL
  else if a = '-' && b = '>' then some .ARROW
  else if a = '=' && b = '>' then some .FAT_ARROW
  else none

/-- Modelled from the spec: the interior of `Lexer.skipWhitespace` (the
whitespace tests) is elided in src/src/lexer/lexer.ts lines 190-202; restored
from §4.1 ("Whitespace (space, tab, carriage return, newline) is skipped")
and the identical clean-version function in src/unnamed/part_010. -/
def skipWhitespace : List Char → Nat → Nat → List Char × Nat × Nat
  | [], line, column => ([], line, column)
  | c :: cs, line, column =>
    if c = ' ' || c = '\t' || c = '\r' then skipWhitespace cs line (column + 1)
    else if c = '\n' then skipWhitespace cs (line + 1) 1
    else (c :: cs, line, column)

/-- Reads the number token at the head of the input (`Lexer.readNumber`):
the maximal run of digits and dots. -/
def readNumber (st : LexSt) : Token × LexSt :=
  let ds := st.rest.takeWhile isNumChar
  let value := String.mk ds
  (makeToken .NUMBER value st.line (st.column + ds.length),
   { rest := st.rest.dropWhile isNumChar, line := st.line, column := st.column + ds.length })

/-- Reads the identifier-or-keyword token at the head of the input
(`Lexer.readIdentifier`). -/
def readIdentifier (st : LexSt) : Token × LexSt :=
  let ds := st.rest.takeWhile isIdentChar
  let value := String.mk ds
  let tokenType := (getKeywordTokenType value).getD .IDENTIFIER
  (makeToken tokenType value st.line (st.column + ds.length),
   { rest := st.rest.dropWhile isIdentChar, line := st.line, column := st.column + ds.length })

/-- Modelled from the spec: the newline test inside `Lexer.readString`
(lines 156-163) is elided in src/src/lexer/lexer.ts; restored from the
identical clean-version function in src/unnamed/part_010.  Scans string
content up to the closing quote, maintaining line/column counters; returns
the content, the remainder starting at the closing quote (or `[]` when the
string is unterminated), and the updated counters. -/
def readStringLoop : List Char → Nat → Nat → List Char × List Char × Nat × Nat
  | [], line, column => ([], [], line, column)
  | c :: cs, line, column =>
    if c = '"' then ([], c :: cs, line, column)
    else
      let line2 := if c = '\n' then line + 1 else line
      let column2 := if c = '\n' then 1 else column + 1
      match readStringLoop cs line2 column2 with
      | (content, rest2) => (c :: content, rest2)

/-- Reads the string token at the head of the input (`Lexer.readString`);
the head of `st.rest` is the opening quote.  Unterminated strings are a
lexical error. -/
def readString (st : LexSt) : Except LexErr (Token × LexSt) :=
  match st.rest with
  | _ :: afterQuote =>
    (match readStringLoop afterQuote st.line (st.column + 1) with
     | (content, rest2, line2, column2) =>
       match rest2 with
       | [] => .error (.unterminatedString line2)
       | _ :: afterClose =>
         .ok (makeToken .STRING (String.mk content) line2 (column2 + 1),
              { rest := afterClose, line := line2, column := column2 + 1 }))
  | [] => .error (.unterminatedString st.line)

/-- Modelled from the spec: in `Lexer.nextToken` the guard of the string
branch (`if (char === '"')`, line 108) is elided in src/src/lexer/lexer.ts;
restored from §4.1 ("Strings: delimited by `\"`") and src/unnamed/part_010.
Otherwise a direct embedding of `Lexer.nextToken`: skip whitespace, then
numbers, strings, identifiers/keywords, two-character operators,
single-character tokens, else a lexical error. -/
def nextToken (st : LexSt) : Except LexErr (Token × LexSt) :=
  match skipWhitespace st.rest st.line st.column with
  | (wrest, wline, wcolumn) =>
  let st := { rest := wrest, line := wline, column := wcolumn : LexSt }
  match st.rest with
  | [] => .ok (makeToken .EOF "" st.line st.column, st)
  | c :: cs =>
    if isDigitChar c then .ok (readNumber st)
    else if c = '"' then readString st
    else if isIdentStart c then .ok (readIdentifier st)
    else
      match cs with
      | b :: rest2 =>
        (match getTwoCharTokenType c b with
         | some t =>
           .ok (makeToken t (String.mk [c, b]) st.line (st.column + 2),
                { rest := rest2, line := st.line, column := st.column + 2 })
         | none =>
           match getSingleCharTokenType c with
           | some t =>
             .ok (makeToken t (String.mk [c]) st.line (st.column + 1),
                  { rest := b :: rest2, line := st.line, column := st.column + 1 })
           | none => .error (.unexpectedCharacter c st.line st.column))
      | [] =>
        match getSingleCharTokenType c with
        | some t =>
          .ok (makeToken t (String.mk [c]) st.line (st.column + 1),
               { rest := [], line := st.line, column := st.column + 1 })
        | none => .error (.unexpectedCharacter c st.line st.column)

/-- The scan loop of `Lexer.tokenize`: while input remains, emit the next
token (dropping NEWLINE tokens, which this lexer never actually produces);
afterwards append the final EOF token. -/
def tokenizeLoop : Nat → LexSt → List Token → Except LexErr (List Token)
  | 0, _, _ => .error .fuelExhausted
  | n + 1, st, acc =>
    match st.rest with
    | [] => .ok (acc ++ [makeToken .EOF "" st.line st.column])
    | _ :: _ =>
      match nextToken st with
      | .error e => .error e
      | .ok (t, st2) =>
        if t.type = .NEWLINE then tokenizeLoop n st2 acc
        else tokenizeLoop n st2 (acc ++ [t])

/-- `Lexer.tokenize(source)`: the whole scan, starting at line 1 column 1. -/
def tokenize (source : String) : Except LexErr (List Token) :=
  tokenizeLoop (source.length + 1) { rest := source.toList, line := 1, column := 1 } []

/-- The static type vocabulary (TYPE SYSTEM section of src/src/lexer/lexer.ts,
classes PrimitiveType, FunctionType, GenericType, ResultType, OptionType).
`GenericType` keeps its constraint list field from the source constructor. -/
inductive Ty where
  | PrimitiveType (name : String)
  | FunctionType (params : List Ty) (returnType : Ty)
  | GenericType (name : String) (constraints : List Ty)
  | OptionType (innerType : Ty)
  | ResultType (okType : Ty) (errorType : Ty)

mutual

/-- Structural type equality, the `equals` methods of the Type classes.
The `PrimitiveType.equals` body is elided in src/src/lexer/lexer.ts and is
restored from the identical clean-version method in src/unnamed/part_009
(`other instanceof PrimitiveType && other.name === this.name`).
`FunctionType.equals` in src/src/lexer/lexer.ts has no parameter-count
check: it tests `this.params.every((p, i) => p.equals(other.params[i]))`,
which is false as soon as `other.params[i]` is missing but ignores extra
parameters of `other`; `funParamsEq` reproduces exactly that.
Modelled from the spec: the `GenericType.equals` body is elided in the
source; restored from §3 ("generic placeholder (name + constraint list)",
equality structural within the same variant); it is never reached by any
claim (the parser never builds a GenericType). -/
def Ty.equals : Ty → Ty → Bool
  | .PrimitiveType n, .PrimitiveType m => n = m
  | .FunctionType ps r, .FunctionType qs s => funParamsEq ps qs && r.equals s
  | .GenericType n _, .GenericType m _ => n = m
  | .OptionType a, .OptionType b => a.equals b
  | .ResultType a e, .ResultType b f => a.equals b && e.equals f
  | _, _ => false

/-- The `every`-with-possibly-missing-element test of `FunctionType.equals`. -/
def funParamsEq : List Ty → List Ty → Bool
  | [], _ => true
  | _ :: _, [] => false
  | p :: ps, q :: qs => p.equals q && funParamsEq ps qs

end

/-- Expression nodes (AST NODES section of src/src/lexer/lexer.ts).  The
source gives every Expression a mutable `type` field that the checker fills
in; the embedding instead has the checker return the computed type, so the
field is not represented. -/
inductive Expression where
  | NumberLiteral (value : ℚ)
  | StringLiteral (value : String)
  | BooleanLiteral (value : Bool)
  | Identifier (name : String)
  | BinaryExpression (left : Expression) (operator : TokenType) (right : Expression)
  | FunctionCall (callee : Expression) (args : List Expression)

/-- Statement nodes (AST NODES section of src/src/lexer/lexer.ts).  The
`VariableDeclaration` field named `typeAnnotation` in the source is called
`tyAnnot` here; `FunctionDeclaration.params` is the source's list of
`{ name, type }` records as name/type pairs. -/
inductive Statement where
  | VariableDeclaration (name : String) (tyAnnot : Option Ty)
      (initializer : Option Expression) (isConst : Bool)
  | FunctionDeclaration (name : String) (params : List (String × Ty))
      (returnType : Ty) (body : List Statement)
  | IfStatement (condition : Expression) (thenBranch : List Statement)
      (elseBranch : Option (List Statement))
  | ReturnStatement (value : Option Expression)
  | ExpressionStatement (expression : Expression)

/-- Insertion-order map update with JavaScript `Map.set` semantics: replace
the value of an existing key in place, else append the new binding. -/
def mapSet (k : String) (v : α) : List (String × α) → List (String × α)
  | [] => [(k, v)]
  | (k2, v2) :: rest => if k2 = k then (k2, v) :: rest else (k2, v2) :: mapSet k v rest

/-- Map lookup (`Map.get` after a successful `Map.has`). -/
def mapGet (k : String) : List (String × α) → Option α
  | [] => none
  | (k2, v2) :: rest => if k2 = k then some v2 else mapGet k rest

theorem mapGet_mapSet_self (k : String) (v : α) (l : List (String × α)) :
    mapGet k (mapSet k v l) = some v := by
  induction l with
  | nil => simp [mapSet, mapGet]
  | cons h t ih =>
    obtain ⟨k2, v2⟩ := h
    by_cases hk : k2 = k <;> simp [mapSet, mapGet, hk, ih]

/-- Parse errors.  The source throws `Error` objects carrying a message and
the offending token; the caller (`Parser.statement`) catches them without
inspecting the message, so the embedding records only that a parse error was
thrown.  `fuelExhausted` is an artifact of the fuel-based embedding of the
parsing loops, unreachable for the ample fuel used on every concrete input. -/
inductive PErr where
  | parseFailure
  | fuelExhausted
deriving DecidableEq, Repr

/-- Parser cursor state: the fields `tokens` and `current` of the Parser
class, plus a ghost counter `caught` of the parse errors that
`Parser.statement` has caught and discarded.  The source's catch block
(`catch (error) { this.synchronize(); return null; }`) drops the error on
the floor; no control flow reads `caught`, it only lets theorems talk about
how many errors were swallowed. -/
structure PState where
  tokens : List Token
  current : Nat
  caught : Nat
deriving Repr

/-- Reading past the end of the token array would give `undefined` in the
source; the parser never does so because the token list ends in EOF, and the
embedding totalizes the access with an EOF token. -/
def eofToken : Token := { type := .EOF, value := "", line := 0, column := 0 }

/-- `Parser.peek()`. -/
def PState.peek (s : PState) : Token := s.tokens.getD s.current eofToken

/-- `Parser.previous()`. -/
def PState.previous (s : PState) : Token := s.tokens.getD (s.current - 1) eofToken

/-- Modelled from the spec: the body of `Parser.isAtEnd` (line 292) is elided
in src/src/parser/parser.ts; restored from §6 ("consumers must treat the
final token's kind as a reliable end marker"): the cursor is at the end when
the lookahead token is EOF. -/
def PState.isAtEnd (s : PState) : Bool := s.peek.type = .EOF

/-- Modelled from the spec: the second half of `Parser.check` (line 283) is
elided in src/src/parser/parser.ts (only `if (this.isAtEnd()) return false;`
remains); restored as the single-lookahead kind test of §4.2. -/
def PState.check (s : PState) (t : TokenType) : Bool :=
  if s.isAtEnd then false else s.peek.type = t

/-- `Parser.advance()`: move past the current token unless at end. -/
def PState.advance (s : PState) : PState :=
  if s.isAtEnd then s else { s with current := s.current + 1 }

/-- `Parser.match(...types)`: consume the lookahead if its kind is one of the
given kinds. -/
def PState.matchT (s : PState) (ts : List TokenType) : Bool × PState :=
  if ts.any (fun t => s.check t) then (true, s.advance) else (false, s)

/-- `Parser.consume(type, message)`: advance over a token of the expected
kind, else throw a parse error (the message and offending token are dropped,
as the only catcher drops them). -/
def PState.consume (s : PState) (t : TokenType) : Except PErr Unit × PState :=
  if s.check t then (.ok (), s.advance) else (.error .parseFailure, s)

/-- The scan loop of `Parser.synchronize`.
Modelled from the spec: the statement-boundary test at the top of the loop
(line 314 of src/src/parser/parser.ts) is elided; restored from §4.2
("discarding tokens until a statement boundary (`;`) or a statement-starting
keyword (`fn`,`let`,`const`,`if`) is found"): stop right after a semicolon,
or right before one of the four keywords. -/
def synchronizeLoop : Nat → PState → PState
  | 0, s => s
  | n + 1, s =>
    if s.isAtEnd then s
    else if s.previous.type = .SEMICOLON then s
    else
      match s.peek.type with
      | .FN => s
      | .LET => s
      | .CONST => s
      | .IF => s
      | _ => synchronizeLoop n s.advance

/-- `Parser.synchronize()`: skip the offending token, then scan forward to a
statement boundary. -/
def synchronize (s : PState) : PState :=
  synchronizeLoop (s.tokens.length + 1) s.advance

mutual

/-- The statement-list loop shared by `Parser.parse` (over the whole input)
and the body loops of `Parser.functionDeclaration` / `Parser.ifStatement`:
repeatedly parse a statement while the stop token has not been reached,
keeping the non-null results.  `stopAtBrace` selects between the
`!check(RBRACE) && !isAtEnd()` loop condition of the brace-delimited bodies
and the `!isAtEnd()` condition of the top-level loop. -/
def pStatements : Nat → Bool → PState → List Statement × PState
  | 0, _, s => ([], s)
  | n + 1, stopAtBrace, s =>
    if (stopAtBrace && (s.check .RBRACE || s.isAtEnd)) || (!stopAtBrace && s.isAtEnd) then
      ([], s)
    else
      match pStatement n s with
      | (some st, s1) =>
        (match pStatements n stopAtBrace s1 with
         | (sts, s2) => (st :: sts, s2))
      | (none, s1) => pStatements n stopAtBrace s1

/-- `Parser.statement()`: dispatch on the leading keyword; any parse error
thrown by the selected production is caught here, `synchronize` runs, and
`null` is returned — the error itself is discarded (the ghost `caught`
counter records that this happened). -/
def pStatement : Nat → PState → Option Statement × PState
  | 0, s => (none, { (synchronize s) with caught := s.caught + 1 })
  | n + 1, s =>
    let r :=
      match s.matchT [.LET, .CONST] with
      | (true, s1) => pVariableDeclaration n s1
      | (false, s1) =>
        match s1.matchT [.FN] with
        | (true, s2) => pFunctionDeclaration n s2
        | (false, s2) =>
          match s2.matchT [.IF] with
          | (true, s3) => pIfStatement n s3
          | (false, s3) => pExpressionStatement n s3
    match r with
    | (.ok st, s4) => (some st, s4)
    | (.error _, s4) => (none, { (synchronize s4) with caught := s4.caught + 1 })

/-- `Parser.variableDeclaration()`; the `let`/`const` keyword has just been
consumed.  Modelled from the spec: the elided first line (the `isConst`
computation from the just-consumed keyword, feeding the constructor argument
at line 60 of src/src/parser/parser.ts) is restored as
`previous().type === CONST`. -/
def pVariableDeclaration : Nat → PState → Except PErr Statement × PState
  | 0, s => (.error .fuelExhausted, s)
  | n + 1, s =>
    let isConst := s.previous.type = .CONST
    match s.consume .IDENTIFIER with
    | (.error e, s1) => (.error e, s1)
    | (.ok _, s1) =>
      let name := s1.previous.value
      let (hasTy, s2) := s1.matchT [.COLON]
      let tyR : Except PErr (Option Ty) × PState :=
        if hasTy then
          match pParseType n s2 with
          | (.ok t, s3) => (.ok (some t), s3)
          | (.error e, s3) => (.error e, s3)
        else (.ok none, s2)
      match tyR with
      | (.error e, s3) => (.error e, s3)
      | (.ok tyAnnot, s3) =>
        let (hasInit, s4) := s3.matchT [.ASSIGN]
        let initR : Except PErr (Option Expression) × PState :=
          if hasInit then
            match pExpression n s4 with
            | (.ok e, s5) => (.ok (some e), s5)
            | (.error e, s5) => (.error e, s5)
          else (.ok none, s4)
        match initR with
        | (.error e, s5) => (.error e, s5)
        | (.ok initializer, s5) =>
          match s5.consume .SEMICOLON with
          | (.error e, s6) => (.error e, s6)
          | (.ok _, s6) =>
            (.ok (.VariableDeclaration name tyAnnot initializer isConst), s6)

/-- The parameter list loop of `Parser.functionDeclaration` (a do/while over
comma-separated `name: Type` pairs). -/
def pParamsLoop : Nat → PState → List (String × Ty) → Except PErr (List (String × Ty)) × PState
  | 0, s, _ => (.error .fuelExhausted, s)
  | n + 1, s, acc =>
    match s.consume .IDENTIFIER with
    | (.error e, s1) => (.error e, s1)
    | (.ok _, s1) =>
      let paramName := s1.previous.value
      match s1.consume .COLON with
      | (.error e, s2) => (.error e, s2)
      | (.ok _, s2) =>
        match pParseType n s2 with
        | (.error e, s3) => (.error e, s3)
        | (.ok paramType, s3) =>
          match s3.matchT [.COMMA] with
          | (true, s4) => pParamsLoop n s4 (acc ++ [(paramName, paramType)])
          | (false, s4) => (.ok (acc ++ [(paramName, paramType)]), s4)

/-- `Parser.functionDeclaration()`; the `fn` keyword has just been consumed. -/
def pFunctionDeclaration : Nat → PState → Except PErr Statement × PState
  | 0, s => (.error .fuelExhausted, s)
  | n + 1, s =>
    match s.consume .IDENTIFIER with
    | (.error e, s1) => (.error e, s1)
    | (.ok _, s1) =>
      let name := s1.previous.value
      match s1.consume .LPAREN with
      | (.error e, s2) => (.error e, s2)
      | (.ok _, s2) =>
        let paramsR : Except PErr (List (String × Ty)) × PState :=
          if s2.check .RPAREN then (.ok [], s2) else pParamsLoop n s2 []
        match paramsR with
        | (.error e, s3) => (.error e, s3)
        | (.ok params, s3) =>
          match s3.consume .RPAREN with
          | (.error e, s4) => (.error e, s4)
          | (.ok _, s4) =>
            match s4.consume .ARROW with
            | (.error e, s5) => (.error e, s5)
            | (.ok _, s5) =>
              match pParseType n s5 with
              | (.error e, s6) => (.error e, s6)
              | (.ok returnType, s6) =>
                match s6.consume .LBRACE with
                | (.error e, s7) => (.error e, s7)
                | (.ok _, s7) =>
                  let (body, s8) := pStatements n true s7
                  match s8.consume .RBRACE with
                  | (.error e, s9) => (.error e, s9)
                  | (.ok _, s9) =>
                    (.ok (.FunctionDeclaration name params returnType body), s9)

/-- `Parser.ifStatement()`; the `if` keyword has just been consumed. -/
def pIfStatement : Nat → PState → Except PErr Statement × PState
  | 0, s => (.error .fuelExhausted, s)
  | n + 1, s =>
    match s.consume .LPAREN with
    | (.error e, s1) => (.error e, s1)
    | (.ok _, s1) =>
      match pExpression n s1 with
      | (.error e, s2) => (.error e, s2)
      | (.ok condition, s2) =>
        match s2.consume .RPAREN with
        | (.error e, s3) => (.error e, s3)
        | (.ok _, s3) =>
          match s3.consume .LBRACE with
          | (.error e, s4) => (.error e, s4)
          | (.ok _, s4) =>
            let (thenBranch, s5) := pStatements n true s4
            match s5.consume .RBRACE with
            | (.error e, s6) => (.error e, s6)
            | (.ok _, s6) =>
              match s6.matchT [.ELSE] with
              | (true, s7) =>
                match s7.consume .LBRACE with
                | (.error e, s8) => (.error e, s8)
                | (.ok _, s8) =>
                  let (elseBranch, s9) := pStatements n true s8
                  match s9.consume .RBRACE with
                  | (.error e, s10) => (.error e, s10)
                  | (.ok _, s10) =>
                    (.ok (.IfStatement condition thenBranch (some elseBranch)), s10)
              | (false, s7) =>
                (.ok (.IfStatement condition thenBranch none), s7)

/-- `Parser.expressionStatement()`. -/
def pExpressionStatement : Nat → PState → Except PErr Statement × PState
  | 0, s => (.error .fuelExhausted, s)
  | n + 1, s =>
    match pExpression n s with
    | (.error e, s1) => (.error e, s1)
    | (.ok e, s1) =>
      match s1.consume .SEMICOLON with
      | (.error er, s2) => (.error er, s2)
      | (.ok _, s2) => (.ok (.ExpressionStatement e), s2)

/-- `Parser.expression()`: the lowest-precedence entry point. -/
def pExpression : Nat → PState → Except PErr Expression × PState
  | 0, s => (.error .fuelExhausted, s)
  | n + 1, s => pEquality n s

/-- The `while (match(EQUAL, NOT_EQUAL))` loop of `Parser.equality`. -/
def pEqualityLoop : Nat → Expression → PState → Except PErr Expression × PState
  | 0, _, s => (.error .fuelExhausted, s)
  | n + 1, left, s =>
    match s.matchT [.EQUAL, .NOT_EQUAL] with
    | (false, s1) => (.ok left, s1)
    | (true, s1) =>
      let operator := s1.previous.type
      match pComparison n s1 with
      | (.error e, s2) => (.error e, s2)
      | (.ok right, s2) => pEqualityLoop n (.BinaryExpression left operator right) s2

/-- `Parser.equality()`. -/
def pEquality : Nat → PState → Except PErr Expression × PState
  | 0, s => (.error .fuelExhausted, s)
  | n + 1, s =>
    match pComparison n s with
    | (.error e, s1) => (.error e, s1)
    | (.ok left, s1) => pEqualityLoop n left s1

/-- The `while (match(GREATER, LESS))` loop of `Parser.comparison`. -/
def pComparisonLoop : Nat → Expression → PState → Except PErr Expression × PState
  | 0, _, s => (.error .fuelExhausted, s)
  | n + 1, left, s =>
    match s.matchT [.GREATER, .LESS] with
    | (false, s1) => (.ok left, s1)
    | (true, s1) =>
      let operator := s1.previous.type
      match pTerm n s1 with
      | (.error e, s2) => (.error e, s2)
      | (.ok right, s2) => pComparisonLoop n (.BinaryExpression left operator right) s2

/-- `Parser.comparison()`. -/
def pComparison : Nat → PState → Except PErr Expression × PState
  | 0, s => (.error .fuelExhausted, s)
  | n + 1, s =>
    match pTerm n s with
    | (.error e, s1) => (.error e, s1)
    | (.ok left, s1) => pComparisonLoop n left s1

/-- The `while (match(MINUS, PLUS))` loop of `Parser.term`. -/
def pTermLoop : Nat → Expression → PState → Except PErr Expression × PState
  | 0, _, s => (.error .fuelExhausted, s)
  | n + 1, left, s =>
    match s.matchT [.MINUS, .PLUS] with
    | (false, s1) => (.ok left, s1)
    | (true, s1) =>
      let operator := s1.previous.type
      match pFactor n s1 with
      | (.error e, s2) => (.error e, s2)
      | (.ok right, s2) => pTermLoop n (.BinaryExpression left operator right) s2

/-- `Parser.term()`. -/
def pTerm : Nat → PState → Except PErr Expression × PState
  | 0, s => (.error .fuelExhausted, s)
  | n + 1, s =>
    match pFactor n s with
    | (.error e, s1) => (.error e, s1)
    | (.ok left, s1) => pTermLoop n left s1

/-- The `while (match(DIVIDE, MULTIPLY))` loop of `Parser.factor`. -/
def pFactorLoop : Nat → Expression → PState → Except PErr Expression × PState
  | 0, _, s => (.error .fuelExhausted, s)
  | n + 1, left, s =>
    match s.matchT [.DIVIDE, .MULTIPLY] with
    | (false, s1) => (.ok left, s1)
    | (true, s1) =>
      let operator := s1.previous.type
      match pCall n s1 with
      | (.error e, s2) => (.error e, s2)
      | (.ok right, s2) => pFactorLoop n (.BinaryExpression left operator right) s2

/-- `Parser.factor()`: multiplicative level, binds tighter than `pTerm`. -/
def pFactor : Nat → PState → Except PErr Expression × PState
  | 0, s => (.error .fuelExhausted, s)
  | n + 1, s =>
    match pCall n s with
    | (.error e, s1) => (.error e, s1)
    | (.ok left, s1) => pFactorLoop n left s1

/-- The `while (true) if (match(LPAREN)) ...` loop of `Parser.call`. -/
def pCallLoop : Nat → Expression → PState → Except PErr Expression × PState
  | 0, _, s => (.error .fuelExhausted, s)
  | n + 1, e, s =>
    match s.matchT [.LPAREN] with
    | (false, s1) => (.ok e, s1)
    | (true, s1) =>
      match pFinishCall n e s1 with
      | (.error er, s2) => (.error er, s2)
      | (.ok e2, s2) => pCallLoop n e2 s2

/-- `Parser.call()`: postfix call applications over a primary expression. -/
def pCall : Nat → PState → Except PErr Expression × PState
  | 0, s => (.error .fuelExhausted, s)
  | n + 1, s =>
    match pPrimary n s with
    | (.error e, s1) => (.error e, s1)
    | (.ok e, s1) => pCallLoop n e s1

/-- The argument-list do/while loop of `Parser.finishCall`. -/
def pArgsLoop : Nat → PState → List Expression → Except PErr (List Expression) × PState
  | 0, s, _ => (.error .fuelExhausted, s)
  | n + 1, s, acc =>
    match pExpression n s with
    | (.error e, s1) => (.error e, s1)
    | (.ok a, s1) =>
      match s1.matchT [.COMMA] with
      | (true, s2) => pArgsLoop n s2 (acc ++ [a])
      | (false, s2) => (.ok (acc ++ [a]), s2)

/-- `Parser.finishCall(callee)`; the opening parenthesis has been consumed. -/
def pFinishCall : Nat → Expression → PState → Except PErr Expression × PState
  | 0, _, s => (.error .fuelExhausted, s)
  | n + 1, callee, s =>
    let argsR : Except PErr (List Expression) × PState :=
      if s.check .RPAREN then (.ok [], s) else pArgsLoop n s []
    match argsR with
    | (.error e, s1) => (.error e, s1)
    | (.ok args, s1) =>
      match s1.consume .RPAREN with
      | (.error e, s2) => (.error e, s2)
      | (.ok _, s2) => (.ok (.FunctionCall callee args), s2)

/-- `Parser.primary()`.  Modelled from the spec: the body of the BOOLEAN
branch (line 225 of src/src/parser/parser.ts) is elided; restored as the
standard construction of a boolean literal from the token text
(`previous().value === "true"`, cf. §3: boolean literal expressions carry
the literal value). -/
def pPrimary : Nat → PState → Except PErr Expression × PState
  | 0, s => (.error .fuelExhausted, s)
  | n + 1, s =>
    match s.matchT [.BOOLEAN] with
    | (true, s1) => (.ok (.BooleanLiteral (s1.previous.value = "true")), s1)
    | (false, s1) =>
      match s1.matchT [.NUMBER] with
      | (true, s2) => (.ok (.NumberLiteral (parseNumber s2.previous.value)), s2)
      | (false, s2) =>
        match s2.matchT [.STRING] with
        | (true, s3) => (.ok (.StringLiteral s3.previous.value), s3)
        | (false, s3) =>
          match s3.matchT [.IDENTIFIER] with
          | (true, s4) => (.ok (.Identifier s4.previous.value), s4)
          | (false, s4) =>
            match s4.matchT [.LPAREN] with
            | (true, s5) =>
              match pExpression n s5 with
              | (.error e, s6) => (.error e, s6)
              | (.ok e, s6) =>
                match s6.consume .RPAREN with
                | (.error er, s7) => (.error er, s7)
                | (.ok _, s7) => (.ok e, s7)
            | (false, s5) => (.error .parseFailure, s5)

/-- The inner-type do/while loop of the generic branch of `Parser.parseType`. -/
def pTypeArgsLoop : Nat → PState → List Ty → Except PErr (List Ty) × PState
  | 0, s, _ => (.error .fuelExhausted, s)
  | n + 1, s, acc =>
    match pParseType n s with
    | (.error e, s1) => (.error e, s1)
    | (.ok t, s1) =>
      match s1.matchT [.COMMA] with
      | (true, s2) => pTypeArgsLoop n s2 (acc ++ [t])
      | (false, s2) => (.ok (acc ++ [t]), s2)

/-- `Parser.parseType()`.  Modelled from the spec: the base-name dispatch of
the generic branch (lines 262-263 of src/src/parser/parser.ts show only the
two `return` statements, with the guards elided); restored from §4.2
("Generic type annotations (`Option<T>`, `Result<T,E>`) are parsed by
reading a base identifier, then ... inner types"): base name `Option` gives
an option type over the first inner type, base name `Result` a result type
over the first two, any other base name falls through to a primitive type.
A missing inner type position (never produced by a well-formed annotation)
is totalised with the primitive type named "undefined". -/
def pParseType : Nat → PState → Except PErr Ty × PState
  | 0, s => (.error .fuelExhausted, s)
  | n + 1, s =>
    match s.matchT [.IDENTIFIER] with
    | (false, s1) => (.error .parseFailure, s1)
    | (true, s1) =>
      let typeName := s1.previous.value
      match s1.matchT [.LESS] with
      | (false, s2) => (.ok (.PrimitiveType typeName), s2)
      | (true, s2) =>
        match pTypeArgsLoop n s2 [] with
        | (.error e, s3) => (.error e, s3)
        | (.ok innerTypes, s3) =>
          match s3.consume .GREATER with
          | (.error e, s4) => (.error e, s4)
          | (.ok _, s4) =>
            if typeName = "Option" then
              (.ok (.OptionType (innerTypes.getD 0 (.PrimitiveType "undefined"))), s4)
            else if typeName = "Result" then
              (.ok (.ResultType (innerTypes.getD 0 (.PrimitiveType "undefined"))
                                (innerTypes.getD 1 (.PrimitiveType "undefined"))), s4)
            else (.ok (.PrimitiveType typeName), s4)

end

/-- `Parser.parse()` together with the ghost count of swallowed parse
errors: runs the top-level statement loop from position 0 and returns the
collected statements plus how many parse errors `Parser.statement` caught
and discarded along the way.  The fuel is amply beyond the recursion the
token list can force. -/
def parseWithLog (tokens : List Token) : List Statement × Nat :=
  let fuel := (tokens.length + 2) * (tokens.length + 2)
  match pStatements fuel false { tokens := tokens, current := 0, caught := 0 } with
  | (stmts, s) => (stmts, s.caught)

/-- `Parser.parse()`: the statement list the caller receives.  Note the
return type: the parser surfaces no error to its caller — every parse error
is caught inside `Parser.statement`. -/
def parse (tokens : List Token) : List Statement :=
  (parseWithLog tokens).1

/-- Lexing followed by parsing; `none` when the lexer fails. -/
def lexParse (source : String) : Option (List Statement) :=
  match tokenize source with
  | .ok toks => some (parse toks)
  | .error _ => none

/-- Lexing followed by parsing, also reporting the ghost count of parse
errors caught and discarded by `Parser.statement`. -/
def lexParseLog (source : String) : Option (List Statement × Nat) :=
  match tokenize source with
  | .ok toks => some (parseWithLog toks)
  | .error _ => none

/-- Type-checker errors, one constructor per `throw new Error(...)` site of
the TypeChecker class (src/unnamed/part_011); the human-readable message
texts are represented by the constructor identity and payloads. -/
inductive TErr where
  | typeMismatch (src dst : Ty)
  | cannotInfer (name : String)
  | undefinedVariable (name : String)
  | conditionNotBoolean (t : Ty)
  | arithmeticRequiresNumbers (l r : Ty)
  | cannotCompare (l r : Ty)
  | comparisonRequiresNumbers (l r : Ty)
  | cannotCallNonFunction
  | arityMismatch (expected got : Nat)
  | argumentMismatch (idx : Nat) (expected got : Ty)
  | untypedBinaryOperator

/-- Checker state: the fields `scope` and `scopes` of the TypeChecker class.
`pushScope` pushes a copy of the current scope onto the stack and leaves the
current scope in place (the body then mutates the current scope directly);
`popScope` replaces the current scope by the most recently pushed copy. -/
structure CheckState where
  scope : List (String × Ty)
  scopes : List (List (String × Ty))

/-- `TypeChecker.pushScope()` (`this.scopes.push(new Map(this.scope))`). -/
def pushScope (st : CheckState) : CheckState :=
  { st with scopes := st.scope :: st.scopes }

/-- `TypeChecker.popScope()`. -/
def popScope (st : CheckState) : CheckState :=
  match st.scopes with
  | [] => st
  | sc :: rest => { scope := sc, scopes := rest }

/-- The parent-scope walk of `TypeChecker.lookupVariable` (most recently
pushed copy first). -/
def lookupScopesT (name : String) : List (List (String × Ty)) → Option Ty
  | [] => none
  | sc :: rest =>
    match mapGet name sc with
    | some t => some t
    | none => lookupScopesT name rest

/-- `TypeChecker.lookupVariable(name)`: current scope first, then the stack
of pushed copies. -/
def lookupVariableT (name : String) (st : CheckState) : Option Ty :=
  match mapGet name st.scope with
  | some t => some t
  | none => lookupScopesT name st.scopes

/-- `TypeChecker.isAssignable(from, to)`: exact structural equality. -/
def isAssignable (src dst : Ty) : Bool := src.equals dst

mutual

/-- `TypeChecker.checkExpression(expr)` with the two expression helpers
`checkBinaryExpression` and `checkFunctionCall` inlined into the dispatch
(they are called from nowhere else; inlining lets the recursion be
structural).  The source stores the computed type into the node's mutable
`type` field; the embedding returns it instead.  Expressions never modify
the scope, so the state is read-only here.

In `checkBinaryExpression` the switch of the source has no default: an
operator outside the eight handled kinds leaves the node untyped and returns
normally; the embedding reports that situation - unreachable from the
parser, which only produces the eight kinds - as the distinguished error
`untypedBinaryOperator`. -/
def checkExpression (e : Expression) (st : CheckState) : Except TErr Ty :=
  match e with
  | .NumberLiteral _ => .ok (.PrimitiveType "number")
  | .StringLiteral _ => .ok (.PrimitiveType "string")
  | .BooleanLiteral _ => .ok (.PrimitiveType "boolean")
  | .Identifier name =>
    match lookupVariableT name st with
    | some t => .ok t
    | none => .error (.undefinedVariable name)
  | .BinaryExpression l op r =>
    -- TypeChecker.checkBinaryExpression
    match checkExpression l st with
    | .error e => .error e
    | .ok leftType =>
      match checkExpression r st with
      | .error e => .error e
      | .ok rightType =>
        match op with
        | .PLUS | .MINUS | .MULTIPLY | .DIVIDE =>
          if leftType.equals (.PrimitiveType "number") &&
             rightType.equals (.PrimitiveType "number") then
            .ok (.PrimitiveType "number")
          else .error (.arithmeticRequiresNumbers leftType rightType)
        | .EQUAL | .NOT_EQUAL =>
          if isAssignable leftType rightType || isAssignable rightType leftType then
            .ok (.PrimitiveType "boolean")
          else .error (.cannotCompare leftType rightType)
        | .LESS | .GREATER =>
          if leftType.equals (.PrimitiveType "number") &&
             rightType.equals (.PrimitiveType "number") then
            .ok (.PrimitiveType "boolean")
          else .error (.comparisonRequiresNumbers leftType rightType)
        | _ => .error .untypedBinaryOperator
  | .FunctionCall callee args =>
    -- TypeChecker.checkFunctionCall
    match checkExpression callee st with
    | .error e => .error e
    | .ok calleeTy =>
      match calleeTy with
      | .FunctionType params returnType =>
        if args.length = params.length then
          match checkCallArgs args params 0 st with
          | .error e => .error e
          | .ok _ => .ok returnType
        else .error (.arityMismatch params.length args.length)
      | _ => .error .cannotCallNonFunction

/-- The argument loop of `TypeChecker.checkFunctionCall`: check each
argument and test assignability against the corresponding parameter type
(`idx` is zero-based; the source reports `idx + 1` in its message). -/
def checkCallArgs (args : List Expression) (params : List Ty) (idx : Nat)
    (st : CheckState) : Except TErr Unit :=
  match args, params with
  | [], _ => .ok ()
  | a :: rest, p :: prest =>
    match checkExpression a st with
    | .error e => .error e
    | .ok argTy =>
      if isAssignable argTy p then checkCallArgs rest prest (idx + 1) st
      else .error (.argumentMismatch (idx + 1) p argTy)
  | _ :: _, [] => .ok ()

end

/-- The parameter-binding loop of `TypeChecker.checkFunctionDeclaration`. -/
def bindParamTypes (params : List (String × Ty)) (st : CheckState) : CheckState :=
  match params with
  | [] => st
  | p :: rest => bindParamTypes rest { st with scope := mapSet p.1 p.2 st.scope }

mutual

/-- `TypeChecker.checkStatement(stmt)` with the per-kind statement helpers
`checkVariableDeclaration`, `checkFunctionDeclaration` and
`checkIfStatement` inlined into the dispatch (each is called from nowhere
else; inlining lets the recursion be structural).

Note the dispatch has no branch for `ReturnStatement`: a return statement is
skipped entirely, its expression is never checked and never compared with
the enclosing declared return type.

`checkVariableDeclaration`: with an initializer, check it and either compare
against the declared type or infer the declared type from it; a declaration
with neither a type nor an initializer is a type error; finally bind the
declared-or-inferred type in the current scope.

`checkFunctionDeclaration`: the function type is registered in the enclosing
scope BEFORE the body is checked (the source comment reads "Add function to
scope first (for recursion)"); then a copy of the scope is pushed,
parameters are bound, the body is checked and the saved copy is restored.

`checkIfStatement`: the condition must check to the primitive boolean type;
each branch is checked inside a pushed/popped scope copy. -/
def checkStatement (stmt : Statement) (st : CheckState) : Except TErr CheckState :=
  match stmt with
  | .VariableDeclaration name tyAnnot initializer _ =>
    -- TypeChecker.checkVariableDeclaration
    (match initializer with
     | some init =>
       match checkExpression init st with
       | .error e => .error e
       | .ok initTy =>
         match tyAnnot with
         | some ann =>
           if isAssignable initTy ann then
             .ok { st with scope := mapSet name ann st.scope }
           else .error (.typeMismatch initTy ann)
         | none => .ok { st with scope := mapSet name initTy st.scope }
     | none =>
       match tyAnnot with
       | some ann => .ok { st with scope := mapSet name ann st.scope }
       | none => .error (.cannotInfer name))
  | .FunctionDeclaration name params returnType body =>
    -- TypeChecker.checkFunctionDeclaration
    let funcType := Ty.FunctionType (params.map (fun p => p.2)) returnType
    let st1 := { st with scope := mapSet name funcType st.scope }
    let st3 := bindParamTypes params (pushScope st1)
    (match checkStatements body st3 with
     | .error e => .error e
     | .ok st4 => .ok (popScope st4))
  | .IfStatement condition thenBranch elseBranch =>
    -- TypeChecker.checkIfStatement
    (match checkExpression condition st with
     | .error e => .error e
     | .ok condTy =>
       if condTy.equals (.PrimitiveType "boolean") then
         match checkStatements thenBranch (pushScope st) with
         | .error e => .error e
         | .ok st1 => checkElseBranch elseBranch (popScope st1)
       else .error (.conditionNotBoolean condTy))
  | .ExpressionStatement e =>
    (match checkExpression e st with
     | .error er => .error er
     | .ok _ => .ok st)
  | .ReturnStatement _ => .ok st

/-- The else-branch half of `TypeChecker.checkIfStatement`: when present,
check it inside a pushed/popped scope copy. -/
def checkElseBranch (elseBranch : Option (List Statement)) (st : CheckState) :
    Except TErr CheckState :=
  match elseBranch with
  | some els =>
    (match checkStatements els (pushScope st) with
     | .error e => .error e
     | .ok st3 => .ok (popScope st3))
  | none => .ok st

/-- The statement loop of `TypeChecker.typeCheck`, also used for function
bodies and if branches. -/
def checkStatements (stmts : List Statement) (st : CheckState) :
    Except TErr CheckState :=
  match stmts with
  | [] => .ok st
  | s :: rest =>
    match checkStatement s st with
    | .error e => .error e
    | .ok st1 => checkStatements rest st1

end

/-- `TypeChecker.typeCheck(statements)`: check every top-level statement in
order, starting from the freshly constructed checker state (empty scope,
empty stack); fails fast at the first violated rule. -/
def typeCheck (statements : List Statement) : Except TErr CheckState :=
  checkStatements statements { scope := [], scopes := [] }

/-- Whether an `Except` result is a success (the checker reported no error). -/
def exceptOk : Except ε α → Bool
  | .ok _ => true
  | .error _ => false

/-- Runtime values (the Value class hierarchy of
src/src/interpreter/interpreter.ts).  `FunctionValue` carries the fields of
its declaration AST node (name, parameters, declared return type, body) and
the captured closure snapshot; `builtin` values are out of the core's scope
and never constructed by the embedded interpreter. -/
inductive Value where
  | NumberValue (value : ℚ)
  | StringValue (value : String)
  | BooleanValue (value : Bool)
  | FunctionValue (name : String) (params : List (String × Ty)) (returnType : Ty)
      (body : List Statement) (closure : List (String × Value))
  | ResultValue (isOk : Bool) (value : Value)
  | OptionValue (value : Option Value)

/-- The interpreter's environment: the `Map<string, Value>` of the source,
as an insertion-ordered association list. -/
abbrev Env : Type := List (String × Value)

/-- Runtime errors, one constructor per `throw new Error(...)` site of the
Interpreter class. -/
inductive RuntimeErr where
  | undefinedVariable (name : String)
  | divisionByZero
  | invalidBinaryOperation
  | canOnlyCallFunctions
  | arityMismatch (expected got : Nat)

/-- What the interpreter can throw: a `RuntimeError` (an `Error` in the
source), the `ReturnException` control-flow signal, or exhaustion of the
fuel that embeds the host call stack (the analogue of unbounded recursion
exhausting the stack; `Interpreter.call` rethrows it like any non-return
error). -/
inductive Thrown where
  | err (e : RuntimeErr)
  | ret (value : Value)
  | fuelExhausted

/-- `Interpreter.lookupVariable(name)`: the source consults ONLY the current
environment map (`this.environment`), there is no parent chain. -/
def lookupVariable (name : String) (env : Env) : Option Value :=
  mapGet name env

/-- `Interpreter.isTruthy(value)`: booleans by value, numbers nonzero,
every other variant truthy. -/
def isTruthy : Value → Bool
  | .BooleanValue b => b
  | .NumberValue v => decide (v ≠ 0)
  | _ => true

/-- Modelled from the spec: the bodies of the three same-variant tests in
`Interpreter.isEqual` (lines 263-271 of src/src/interpreter/interpreter.ts)
are elided; restored from §4.4 ("equality compares same-variant values for
value equality, cross-variant comparisons are always unequal"): number,
string and boolean pairs compare by value, everything else is `false`. -/
def isEqual : Value → Value → Bool
  | .NumberValue a, .NumberValue b => decide (a = b)
  | .StringValue a, .StringValue b => a = b
  | .BooleanValue a, .BooleanValue b => a = b
  | _, _ => false

/-- The variant tag of a runtime value (which Value subclass it is an
instance of), used to state cross-variant claims. -/
def Value.variantIdx : Value → Nat
  | .NumberValue _ => 0
  | .StringValue _ => 1
  | .BooleanValue _ => 2
  | .FunctionValue _ _ _ _ _ => 3
  | .ResultValue _ _ => 4
  | .OptionValue _ => 5

/-- The operator dispatch of `Interpreter.evaluateBinaryExpression` after
both operands are evaluated (lines 174-202 of
src/src/interpreter/interpreter.ts).
Modelled from the spec: three elided guard lines are restored there -
(1) the division-by-zero test (`case DIVIDE:` is directly followed by
`throw new Error('Division by zero')`, a stray brace and the division
itself; §4.4/§8: "Division by a literal 0 always fails with RuntimeError"),
(2) the EQUAL branch of the number/number switch (only the NOT_EQUAL
`!==` return survives; §4.4: "equality compares same-variant values for
value equality"), and
(3) the two `if` guards dispatching non-number pairs on EQUAL/NOT_EQUAL to
`isEqual` (only the two `return` lines survive; same spec sentence).
For two numbers the switch handles all eight operators; any other operator
on numbers, or a non-equality operator on a non-number pair, falls to the
`Invalid binary operation` throw. -/
def evaluateBinaryOp (op : TokenType) (left right : Value) : Except Thrown Value :=
  match left, right with
  | .NumberValue l, .NumberValue r =>
    match op with
    | .PLUS => .ok (.NumberValue (l + r))
    | .MINUS => .ok (.NumberValue (l - r))
    | .MULTIPLY => .ok (.NumberValue (l * r))
    | .DIVIDE =>
      if r = 0 then .error (.err .divisionByZero)
      else .ok (.NumberValue (l / r))
    | .GREATER => .ok (.BooleanValue (decide (l > r)))
    | .LESS => .ok (.BooleanValue (decide (l < r)))
    | .EQUAL => .ok (.BooleanValue (decide (l = r)))
    | .NOT_EQUAL => .ok (.BooleanValue (decide (l ≠ r)))
    | _ => .error (.err .invalidBinaryOperation)
  | _, _ =>
    match op with
    | .EQUAL => .ok (.BooleanValue (isEqual left right))
    | .NOT_EQUAL => .ok (.BooleanValue (!isEqual left right))
    | _ => .error (.err .invalidBinaryOperation)

/-- The parameter-binding loop of `Interpreter.call`: seed the call
environment from the closure snapshot and bind parameters positionally
(arity was already checked by the caller). -/
def bindParams : List (String × Ty) → List Value → Env → Env
  | [], _, env => env
  | _, [], env => env
  | p :: ps, v :: vs, env => bindParams ps vs (mapSet p.1 v env)

mutual

/-- `Interpreter.evaluate(expr)`, with `evaluateBinaryExpression`'s operand
evaluation and `evaluateFunctionCall` inlined into the dispatch (each is
called from nowhere else).  Every function of this mutual block takes a
fuel argument and passes a strictly smaller one to every callee; fuel 0
means the embedded call stack is exhausted.

`evaluateFunctionCall` evaluates the callee, rejects non-function values
(`Can only call functions`) BEFORE evaluating arguments, evaluates the
arguments, checks the arity, and performs the call. -/
def evaluate : Nat → Expression → Env → Except Thrown Value × Env
  | 0, _, env => (.error .fuelExhausted, env)
  | n + 1, e, env =>
    match e with
    | .NumberLiteral v => (.ok (.NumberValue v), env)
    | .StringLiteral v => (.ok (.StringValue v), env)
    | .BooleanLiteral v => (.ok (.BooleanValue v), env)
    | .Identifier name =>
      (match lookupVariable name env with
       | some v => (.ok v, env)
       | none => (.error (.err (.undefinedVariable name)), env))
    | .BinaryExpression l op r =>
      (match evaluate n l env with
       | (.error t, env1) => (.error t, env1)
       | (.ok lv, env1) =>
         match evaluate n r env1 with
         | (.error t, env2) => (.error t, env2)
         | (.ok rv, env2) => (evaluateBinaryOp op lv rv, env2))
    | .FunctionCall callee args =>
      -- Interpreter.evaluateFunctionCall
      (match evaluate n callee env with
       | (.error t, env1) => (.error t, env1)
       | (.ok calleeV, env1) =>
         match calleeV with
         | .FunctionValue _ params _ body closure =>
           (match evalArgs n args env1 with
            | (.error t, env2) => (.error t, env2)
            | (.ok argVals, env2) =>
              if argVals.length = params.length then
                call n params body closure argVals env2
              else
                (.error (.err (.arityMismatch params.length argVals.length)), env2))
         | _ => (.error (.err .canOnlyCallFunctions), env1))

/-- The argument-evaluation loop of `Interpreter.evaluateFunctionCall`
(`expr.args.map(arg => this.evaluate(arg))`, left to right). -/
def evalArgs : Nat → List Expression → Env → Except Thrown (List Value) × Env
  | 0, _, env => (.error .fuelExhausted, env)
  | _ + 1, [], env => (.ok [], env)
  | n + 1, e :: rest, env =>
    match evaluate n e env with
    | (.error t, env1) => (.error t, env1)
    | (.ok v, env1) =>
      match evalArgs n rest env1 with
      | (.error t, env2) => (.error t, env2)
      | (.ok vs, env2) => (.ok (v :: vs), env2)

/-- `Interpreter.call(func, args)`: build the call environment from the
closure snapshot plus bound arguments, switch `this.environment` to it, run
the body through `executeBlock`, and restore the previous environment in a
`finally`.  A thrown `ReturnException` is caught here and supplies the
result; with no explicit return the call yields the number 0 ("If no
explicit return, return 0"); every other thrown error is rethrown. -/
def call : Nat → List (String × Ty) → List Statement → Env → List Value → Env →
    Except Thrown Value × Env
  | 0, _, _, _, _, env => (.error .fuelExhausted, env)
  | n + 1, params, body, closure, args, env =>
    let callEnv := bindParams params args closure
    match executeBlock n body callEnv with
    | (none, _) => (.ok (.NumberValue 0), env)
    | (some (.ret v), _) => (.ok v, env)
    | (some t, _) => (.error t, env)

/-- `Interpreter.execute(stmt)`, with `executeVariableDeclaration`,
`executeFunctionDeclaration` and the `ReturnStatement` branch inlined into
the dispatch.

`executeVariableDeclaration`: a declaration without an initializer binds the
default value `NumberValue 0` regardless of any type annotation; otherwise
the initializer's value is bound.

`executeFunctionDeclaration`: the closure snapshot
(`new Map(this.environment)`) is taken BEFORE the function's own name is
bound into the environment, so the snapshot never contains the function
itself.

`ReturnStatement`: throws a `ReturnException` carrying the evaluated value,
or `NumberValue 0` when the return has no expression. -/
def execute : Nat → Statement → Env → Option Thrown × Env
  | 0, _, env => (some .fuelExhausted, env)
  | n + 1, stmt, env =>
    match stmt with
    | .VariableDeclaration name _ initializer _ =>
      -- Interpreter.executeVariableDeclaration
      (match initializer with
       | none => (none, mapSet name (.NumberValue 0) env)
       | some init =>
         match evaluate n init env with
         | (.error t, env1) => (some t, env1)
         | (.ok v, env1) => (none, mapSet name v env1))
    | .FunctionDeclaration name params returnType body =>
      -- Interpreter.executeFunctionDeclaration: snapshot first, then bind
      let func := Value.FunctionValue name params returnType body env
      (none, mapSet name func env)
    | .IfStatement condition thenBranch elseBranch =>
      executeIfStatement n condition thenBranch elseBranch env
    | .ExpressionStatement e =>
      (match evaluate n e env with
       | (.error t, env1) => (some t, env1)
       | (.ok _, env1) => (none, env1))
    | .ReturnStatement v =>
      (match v with
       | some e =>
         match evaluate n e env with
         | (.error t, env1) => (some t, env1)
         | (.ok val, env1) => (some (.ret val), env1)
       | none => (some (.ret (.NumberValue 0)), env))

/-- `Interpreter.executeIfStatement(stmt)`: evaluate the condition, then run
the selected branch (if any) through `executeBlock`. -/
def executeIfStatement : Nat → Expression → List Statement →
    Option (List Statement) → Env → Option Thrown × Env
  | 0, _, _, _, env => (some .fuelExhausted, env)
  | n + 1, condition, thenBranch, elseBranch, env =>
    match evaluate n condition env with
    | (.error t, env1) => (some t, env1)
    | (.ok c, env1) =>
      if isTruthy c then executeBlock n thenBranch env1
      else
        match elseBranch with
        | some els => executeBlock n els env1
        | none => (none, env1)

/-- `Interpreter.executeBlock(statements)`: save `this.environment`, install
a copy (`new Map(previous)`), run the statements, and restore the saved
environment in a `finally` - so the restoration happens on normal exit, on
a thrown error and on a `ReturnException` alike.  With the environment
threaded as an immutable value the copy is the value itself and the
`finally` is the pairing of the result with the saved environment. -/
def executeBlock : Nat → List Statement → Env → Option Thrown × Env
  | 0, _, env => (some .fuelExhausted, env)
  | n + 1, stmts, env =>
    match execSeq n stmts env with
    | (r, _) => (r, env)

/-- The statement loop inside `Interpreter.executeBlock`: execute in order,
stopping at the first thrown error or return. -/
def execSeq : Nat → List Statement → Env → Option Thrown × Env
  | 0, _, env => (some .fuelExhausted, env)
  | _ + 1, [], env => (none, env)
  | n + 1, s :: rest, env =>
    match execute n s env with
    | (some t, env1) => (some t, env1)
    | (none, env1) => execSeq n rest env1

end

/-- `Interpreter.interpret(statements)`: execute the top-level statements in
order against the current environment; the first thrown error (of any kind,
`ReturnException` included) is caught at this level, reported, and stops the
run.  Returns the caught error, if any, and the final global environment. -/
def interpretStmts : Nat → List Statement → Env → Option Thrown × Env
  | _, [], env => (none, env)
  | n, s :: rest, env =>
    match execute n s env with
    | (some t, env1) => (some t, env1)
    | (none, env1) => interpretStmts n rest env1

/-- The error (if any) that `interpret` catches and reports when run on a
fresh global environment with no built-ins registered. -/
def interpReport (fuel : Nat) (statements : List Statement) : Option Thrown :=
  (interpretStmts fuel statements []).1

/-! ### Concrete programs used by the claims -/

/-- A directly recursive factorial program whose comparison uses `<` (a
token this lexer has), so that the whole pipeline processes it: the lexer
and parser succeed, the checker accepts it, and what remains is the
run-time behaviour of the recursive call. -/
def recSrc : String :=
  "fn factorial(n: number) -> number \x7b if (n < 2) \x7b 1; \x7d else \x7b n * factorial(n - 1); \x7d \x7d factorial(2);"

/-- The AST the parser produces for `recSrc`. -/
def recAst : List Statement :=
  [.FunctionDeclaration "factorial" [("n", .PrimitiveType "number")] (.PrimitiveType "number")
    [.IfStatement
      (.BinaryExpression (.Identifier "n") .LESS (.NumberLiteral 2))
      [.ExpressionStatement (.NumberLiteral 1)]
      (some [.ExpressionStatement
        (.BinaryExpression (.Identifier "n") .MULTIPLY
          (.FunctionCall (.Identifier "factorial")
            [.BinaryExpression (.Identifier "n") .MINUS (.NumberLiteral 1)]))])],
   .ExpressionStatement (.FunctionCall (.Identifier "factorial") [.NumberLiteral 2])]

/-- The factorial example exactly as the spec states it (§8), with `<=` in
the condition and a final call `factorial(5)`. -/
def factorialSrc : String :=
  "fn factorial(n: number) -> number \x7b if (n <= 1) \x7b 1; \x7d else \x7b n * factorial(n - 1); \x7d \x7d factorial(5);"

/-- What the pipeline actually makes of `factorialSrc`: since the lexer has
no `<=` token, `n <= 1` lexes as `n`, `<`, `=`, `1`; the parser throws at
the `=` inside the if-condition, synchronizes past the then-block, consumes
the then-block's closing brace as the function's, and swallows the remaining
tokens (the else branch, the closing brace and the final call) in two more
caught parse errors - leaving a factorial with an EMPTY body and no call
statement at all. -/
def factorialAst : List Statement :=
  [.FunctionDeclaration "factorial" [("n", .PrimitiveType "number")] (.PrimitiveType "number") []]

/-- The parser-resynchronization example of §8: a malformed first
declaration followed by a well-formed one. -/
def resyncSrc : String := "let x = ; let y = 5;"

/-- The only statement that survives parsing `resyncSrc`. -/
def yDecl : Statement := .VariableDeclaration "y" none (some (.NumberLiteral 5)) false

/-- The precedence example of §8. -/
def precSrc : String := "2 + 3 * 4;"

/-- The expression `precSrc` parses to: multiplicative binds tighter, so the
tree is `2 + (3 * 4)`. -/
def precExpr : Expression :=
  .BinaryExpression (.NumberLiteral 2) .PLUS
    (.BinaryExpression (.NumberLiteral 3) .MULTIPLY (.NumberLiteral 4))

/-- A function whose returned value (a string) differs from its declared
return type (number); used to show the checker never looks at returns. -/
def badReturnFn : Statement :=
  .FunctionDeclaration "f" [] (.PrimitiveType "number")
    [.ReturnStatement (some (.StringLiteral "hi"))]

/-- The token list the lexer produces for `recSrc` (stated as an explicit
literal so that the lexing and parsing stages can be verified separately). -/
def recToks : List Token :=
  [⟨.FN, "fn", 1, 1⟩, ⟨.IDENTIFIER, "factorial", 1, 4⟩, ⟨.LPAREN, "(", 1, 13⟩,
   ⟨.IDENTIFIER, "n", 1, 14⟩, ⟨.COLON, ":", 1, 15⟩, ⟨.IDENTIFIER, "number", 1, 17⟩,
   ⟨.RPAREN, ")", 1, 23⟩, ⟨.ARROW, "->", 1, 25⟩, ⟨.IDENTIFIER, "number", 1, 28⟩,
   ⟨.LBRACE, "\x7b", 1, 35⟩, ⟨.IF, "if", 1, 37⟩, ⟨.LPAREN, "(", 1, 40⟩,
   ⟨.IDENTIFIER, "n", 1, 41⟩, ⟨.LESS, "<", 1, 43⟩, ⟨.NUMBER, "2", 1, 45⟩,
   ⟨.RPAREN, ")", 1, 46⟩, ⟨.LBRACE, "\x7b", 1, 48⟩, ⟨.NUMBER, "1", 1, 50⟩,
   ⟨.SEMICOLON, ";", 1, 51⟩, ⟨.RBRACE, "\x7d", 1, 53⟩, ⟨.ELSE, "else", 1, 55⟩,
   ⟨.LBRACE, "\x7b", 1, 60⟩, ⟨.IDENTIFIER, "n", 1, 62⟩, ⟨.MULTIPLY, "*", 1, 64⟩,
   ⟨.IDENTIFIER, "factorial", 1, 66⟩, ⟨.LPAREN, "(", 1, 75⟩, ⟨.IDENTIFIER, "n", 1, 76⟩,
   ⟨.MINUS, "-", 1, 78⟩, ⟨.NUMBER, "1", 1, 80⟩, ⟨.RPAREN, ")", 1, 81⟩,
   ⟨.SEMICOLON, ";", 1, 82⟩, ⟨.RBRACE, "\x7d", 1, 84⟩, ⟨.RBRACE, "\x7d", 1, 86⟩,
   ⟨.IDENTIFIER, "factorial", 1, 88⟩, ⟨.LPAREN, "(", 1, 97⟩, ⟨.NUMBER, "2", 1, 98⟩,
   ⟨.RPAREN, ")", 1, 99⟩, ⟨.SEMICOLON, ";", 1, 100⟩, ⟨.EOF, "", 1, 101⟩]

/-- The token list the lexer produces for `factorialSrc`: note tokens 14-15,
where the source text `<=` has become the two tokens `<` and `=` (LESS then
ASSIGN), because the lexer's two-character table has no `<=`. -/
def factorialToks : List Token :=
  [⟨.FN, "fn", 1, 1⟩, ⟨.IDENTIFIER, "factorial", 1, 4⟩, ⟨.LPAREN, "(", 1, 13⟩,
   ⟨.IDENTIFIER, "n", 1, 14⟩, ⟨.COLON, ":", 1, 15⟩, ⟨.IDENTIFIER, "number", 1, 17⟩,
   ⟨.RPAREN, ")", 1, 23⟩, ⟨.ARROW, "->", 1, 25⟩, ⟨.IDENTIFIER, "number", 1, 28⟩,
   ⟨.LBRACE, "\x7b", 1, 35⟩, ⟨.IF, "if", 1, 37⟩, ⟨.LPAREN, "(", 1, 40⟩,
   ⟨.IDENTIFIER, "n", 1, 41⟩, ⟨.LESS, "<", 1, 43⟩, ⟨.ASSIGN, "=", 1, 44⟩,
   ⟨.NUMBER, "1", 1, 46⟩, ⟨.RPAREN, ")", 1, 47⟩, ⟨.LBRACE, "\x7b", 1, 49⟩,
   ⟨.NUMBER, "1", 1, 51⟩, ⟨.SEMICOLON, ";", 1, 52⟩, ⟨.RBRACE, "\x7d", 1, 54⟩,
   ⟨.ELSE, "else", 1, 56⟩, ⟨.LBRACE, "\x7b", 1, 61⟩, ⟨.IDENTIFIER, "n", 1, 63⟩,
   ⟨.MULTIPLY, "*", 1, 65⟩, ⟨.IDENTIFIER, "factorial", 1, 67⟩, ⟨.LPAREN, "(", 1, 76⟩,
   ⟨.IDENTIFIER, "n", 1, 77⟩, ⟨.MINUS, "-", 1, 79⟩, ⟨.NUMBER, "1", 1, 81⟩,
   ⟨.RPAREN, ")", 1, 82⟩, ⟨.SEMICOLON, ";", 1, 83⟩, ⟨.RBRACE, "\x7d", 1, 85⟩,
   ⟨.RBRACE, "\x7d", 1, 87⟩, ⟨.IDENTIFIER, "factorial", 1, 89⟩, ⟨.LPAREN, "(", 1, 98⟩,
   ⟨.NUMBER, "5", 1, 99⟩, ⟨.RPAREN, ")", 1, 100⟩, ⟨.SEMICOLON, ";", 1, 101⟩,
   ⟨.EOF, "", 1, 102⟩]

/-- The token list the lexer produces for `resyncSrc`. -/
def resyncToks : List Token :=
  [⟨.LET, "let", 1, 1⟩, ⟨.IDENTIFIER, "x", 1, 5⟩, ⟨.ASSIGN, "=", 1, 7⟩,
   ⟨.SEMICOLON, ";", 1, 9⟩, ⟨.LET, "let", 1, 11⟩, ⟨.IDENTIFIER, "y", 1, 15⟩,
   ⟨.ASSIGN, "=", 1, 17⟩, ⟨.NUMBER, "5", 1, 19⟩, ⟨.SEMICOLON, ";", 1, 20⟩,
   ⟨.EOF, "", 1, 21⟩]

/-- The token list the lexer produces for `precSrc`. -/
def precToks : List Token :=
  [⟨.NUMBER, "2", 1, 1⟩, ⟨.PLUS, "+", 1, 3⟩, ⟨.NUMBER, "3", 1, 5⟩,
   ⟨.MULTIPLY, "*", 1, 7⟩, ⟨.NUMBER, "4", 1, 9⟩, ⟨.SEMICOLON, ";", 1, 10⟩,
   ⟨.EOF, "", 1, 11⟩]

/-! ### Reference arithmetic denotation (for claim C5) -/

/-- A size measure on expressions giving an upper bound on the evaluation
depth of arithmetic expressions (used to supply enough fuel). -/
def esize : Expression → Nat
  | .BinaryExpression l _ r => esize l + esize r + 1
  | _ => 1

/-- Modelled from the spec: §8 states "For all valid numeric expressions
`a op b` where `op ∈ {+,-,*,/}` and operands are `number` literals ... the
interpreter's result equals the host arithmetic result".  This is the
reference denotation those words describe, over exact rational arithmetic:
the value of an expression built from number literals and the four
arithmetic operators, with `none` marking a division by zero or any
non-arithmetic expression.  It exists only as the comparison point for
claim C5 and is deliberately written from the spec's words, not from the
source. -/
def refEval : Expression → Option ℚ
  | .NumberLiteral v => some v
  | .BinaryExpression l op r =>
    match refEval l, refEval r with
    | some a, some b =>
      (match op with
       | .PLUS => some (a + b)
       | .MINUS => some (a - b)
       | .MULTIPLY => some (a * b)
       | .DIVIDE => if b = 0 then none else some (a / b)
       | _ => none)
    | _, _ => none
  | _ => none

/-! ### Helper lemmas -/

theorem esize_pos (e : Expression) : 1 ≤ esize e := by
  cases e <;> simp [esize]

/-- `Interpreter.call` restores the caller's environment unconditionally
(the `finally` of the source), whatever the body did. -/
theorem call_env (n : Nat) (ps : List (String × Ty)) (body : List Statement)
    (cl : Env) (args : List Value) (env : Env) :
    (call n ps body cl args env).2 = env := by
  cases n with
  | zero => rfl
  | succ m =>
    simp only [call]
    split <;> rfl

/-- `Interpreter.executeBlock` restores the environment it was entered with
(the `finally` of the source), whatever the statements did to the copy. -/
theorem executeBlock_env (n : Nat) (stmts : List Statement) (env : Env) :
    (executeBlock n stmts env).2 = env := by
  cases n <;> rfl

/-- Expression evaluation never changes the active environment: literals and
identifier lookups read it only, binary operands thread it through, and
calls restore it in their `finally`. -/
theorem evaluate_env (n : Nat) :
    (∀ e env, (evaluate n e env).2 = env) ∧
    (∀ es env, (evalArgs n es env).2 = env) := by
  induction n with
  | zero => exact ⟨fun _ _ => rfl, fun _ _ => rfl⟩
  | succ m ih =>
    obtain ⟨ihE, ihA⟩ := ih
    constructor
    · intro e env
      cases e with
      | NumberLiteral v => rfl
      | StringLiteral v => rfl
      | BooleanLiteral v => rfl
      | Identifier name =>
        simp only [evaluate]
        split <;> rfl
      | BinaryExpression l op r =>
        simp only [evaluate]
        rcases hl : evaluate m l env with ⟨rl, env1⟩
        have h1 : env1 = env := by
          have := ihE l env; rw [hl] at this; exact this
        cases rl with
        | error t => simpa using h1
        | ok lv =>
          simp only
          rcases hr : evaluate m r env1 with ⟨rr, env2⟩
          have h2 : env2 = env1 := by
            have := ihE r env1; rw [hr] at this; exact this
          cases rr with
          | error t => simp [h2, h1]
          | ok rv => simp [h2, h1]
      | FunctionCall callee args =>
        simp only [evaluate]
        rcases hc : evaluate m callee env with ⟨rc, env1⟩
        have h1 : env1 = env := by
          have := ihE callee env; rw [hc] at this; exact this
        cases rc with
        | error t => simpa using h1
        | ok calleeV =>
          cases calleeV with
          | FunctionValue fname params retTy body closure =>
            simp only
            rcases ha : evalArgs m args env1 with ⟨ra, env2⟩
            have h2 : env2 = env1 := by
              have := ihA args env1; rw [ha] at this; exact this
            cases ra with
            | error t => simp [h2, h1]
            | ok argVals =>
              simp only
              split
              · rw [call_env, h2, h1]
              · simp [h2, h1]
          | NumberValue v => simpa using h1
          | StringValue v => simpa using h1
          | BooleanValue v => simpa using h1
          | ResultValue a b => simpa using h1
          | OptionValue v => simpa using h1
    · intro es env
      cases es with
      | nil => rfl
      | cons e rest =>
        simp only [evalArgs]
        rcases he : evaluate m e env with ⟨re, env1⟩
        have h1 : env1 = env := by
          have := ihE e env; rw [he] at this; exact this
        cases re with
        | error t => simpa using h1
        | ok v =>
          simp only
          rcases hr : evalArgs m rest env1 with ⟨rr, env2⟩
          have h2 : env2 = env1 := by
            have := ihA rest env1; rw [hr] at this; exact this
          cases rr with
          | error t => simp [h2, h1]
          | ok vs => simp [h2, h1]

/-- For every expression built from number literals and the four arithmetic
operators whose reference value is defined (no division by zero), the
interpreter computes exactly that value, against any environment, given
fuel at least the expression size. -/
theorem evaluate_refEval : ∀ (n : Nat) (e : Expression) (q : ℚ) (env : Env),
    refEval e = some q → esize e ≤ n →
    evaluate n e env = (.ok (.NumberValue q), env) := by
  intro n
  induction n with
  | zero =>
    intro e q env _ hs
    exact absurd hs (by have := esize_pos e; omega)
  | succ m ih =>
    intro e q env hr hs
    cases e with
    | NumberLiteral v =>
      simp only [refEval, Option.some.injEq] at hr
      subst hr; rfl
    | StringLiteral v => simp [refEval] at hr
    | BooleanLiteral v => simp [refEval] at hr
    | Identifier name => simp [refEval] at hr
    | FunctionCall c args => simp [refEval] at hr
    | BinaryExpression l op r =>
      have hl1 := esize_pos l
      have hr1 := esize_pos r
      simp only [esize] at hs
      rcases hL : refEval l with _ | a
      · simp [refEval, hL] at hr
      rcases hR : refEval r with _ | b
      · simp [refEval, hL, hR] at hr
      have ihl : evaluate m l env = (.ok (.NumberValue a), env) :=
        ih l a env hL (by omega)
      have ihr : evaluate m r env = (.ok (.NumberValue b), env) :=
        ih r b env hR (by omega)
      cases op <;> simp [refEval, hL, hR] at hr
      case PLUS => subst hr; simp [evaluate, ihl, ihr, evaluateBinaryOp]
      case MINUS => subst hr; simp [evaluate, ihl, ihr, evaluateBinaryOp]
      case MULTIPLY => subst hr; simp [evaluate, ihl, ihr, evaluateBinaryOp]
      case DIVIDE =>
        obtain ⟨hb, hq⟩ := hr
        subst hq
        simp [evaluate, ihl, ihr, evaluateBinaryOp, hb]

/-- For every expression built from number literals and the four arithmetic
operators whose reference value is defined, the type checker computes the
primitive type number, in any scope state. -/
theorem checkExpression_refEval : ∀ (n : Nat) (e : Expression) (q : ℚ)
    (st : CheckState), refEval e = some q → esize e ≤ n →
    checkExpression e st = .ok (.PrimitiveType "number") := by
  intro n
  induction n with
  | zero =>
    intro e q st _ hs
    exact absurd hs (by have := esize_pos e; omega)
  | succ m ih =>
    intro e q st hr hs
    cases e with
    | NumberLiteral v => rfl
    | StringLiteral v => simp [refEval] at hr
    | BooleanLiteral v => simp [refEval] at hr
    | Identifier name => simp [refEval] at hr
    | FunctionCall c args => simp [refEval] at hr
    | BinaryExpression l op r =>
      have hl1 := esize_pos l
      have hr1 := esize_pos r
      simp only [esize] at hs
      rcases hL : refEval l with _ | a
      · simp [refEval, hL] at hr
      rcases hR : refEval r with _ | b
      · simp [refEval, hL, hR] at hr
      have ihl : checkExpression l st = .ok (.PrimitiveType "number") :=
        ih l a st hL (by omega)
      have ihr : checkExpression r st = .ok (.PrimitiveType "number") :=
        ih r b st hR (by omega)
      cases op <;> simp [refEval, hL, hR] at hr <;>
        simp [checkExpression, ihl, ihr, Ty.equals]

/-- `Interpreter.executeIfStatement` leaves the enclosing environment
untouched: the condition evaluation preserves it and both branches run
through the copy-and-restore of `executeBlock`. -/
theorem executeIfStatement_env (n : Nat) (c : Expression)
    (t : List Statement) (e : Option (List Statement)) (env : Env) :
    (executeIfStatement n c t e env).2 = env := by
  cases n with
  | zero => rfl
  | succ m =>
    simp only [executeIfStatement]
    rcases hc : evaluate m c env with ⟨rc, env1⟩
    have h1 : env1 = env := by
      have := (evaluate_env m).1 c env; rw [hc] at this; exact this
    cases rc with
    | error th => simpa using h1
    | ok cv =>
      simp only
      split
      · rw [executeBlock_env, h1]
      · cases e with
        | some els => rw [executeBlock_env, h1]
        | none => simpa using h1

/-! ### Claim theorems -/

/-- C1: the claim asserts that a directly recursive function resolves its
own name during BOTH checking and evaluation.  The checking half is true
and the evaluation half is false, and this theorem evaluates the code at
the failing input: for the fully-pipelined program `recSrc`
(`fn factorial(n: number) -> number ... factorial(2);`, using `<` so that
every stage runs), lexing and parsing succeed, `typeCheck` accepts the
program (the checker registered `factorial` before checking its body), yet
interpretation is aborted by the runtime error `Undefined variable:
factorial` - because `executeFunctionDeclaration` snapshots the closure
BEFORE binding the function's name and `lookupVariable` consults only the
current environment, the call environment of the recursive call does not
contain `factorial`. -/
theorem C1_recursion_checker_ok_but_runtime_undefined :
    tokenize recSrc = .ok recToks ∧
    parse recToks = recAst ∧
    exceptOk (typeCheck recAst) = true ∧
    interpReport 100 recAst = some (.err (.undefinedVariable "factorial")) :=
  ⟨rfl, rfl, rfl, rfl⟩

/-- C2: evaluating `a == b` on two number values yields the boolean that is
true exactly when `a = b`; `a != b` yields the boolean that is true exactly
when `a ≠ b`; and `==` between values of different variants always yields
false. -/
theorem C2_equality_semantics :
    (∀ (a b : ℚ) (n : Nat) (env : Env),
      evaluate (n + 2) (.BinaryExpression (.NumberLiteral a) .EQUAL (.NumberLiteral b)) env
        = (.ok (.BooleanValue (decide (a = b))), env)) ∧
    (∀ (a b : ℚ) (n : Nat) (env : Env),
      evaluate (n + 2) (.BinaryExpression (.NumberLiteral a) .NOT_EQUAL (.NumberLiteral b)) env
        = (.ok (.BooleanValue (decide (a ≠ b))), env)) ∧
    (∀ v w : Value, v.variantIdx ≠ w.variantIdx →
      evaluateBinaryOp .EQUAL v w = .ok (.BooleanValue false)) := by
  refine ⟨?_, ?_, ?_⟩
  · intro a b n env
    simp [evaluate, evaluateBinaryOp]
  · intro a b n env
    simp [evaluate, evaluateBinaryOp]
  · intro v w h
    cases v <;> cases w <;> simp [Value.variantIdx] at h <;>
      simp [evaluateBinaryOp, isEqual]

/-- C2 witness: a number compared with a string under `==` evaluates to
false. -/
theorem C2_witness :
    evaluateBinaryOp .EQUAL (.NumberValue 1) (.StringValue "one")
      = .ok (.BooleanValue false) :=
  C2_equality_semantics.2.2 (.NumberValue 1) (.StringValue "one") (by decide)

/-- C3 counterexample: the claim asserts the ParseError for the malformed
statement is surfaced to the caller.  It is not: `parse` has no error
channel at all (its result type is a plain statement list - every parse
error is caught inside `Parser.statement`, which synchronizes and returns
null), and on the claim's own example `let x = ; let y = 5;` the parser
throws and catches exactly one ParseError (the ghost `caught` count is 1)
while the caller receives just the recovered statement list `[let y = 5]`
with nothing attached to it. -/
theorem C3_errors_swallowed_counterexample :
    tokenize resyncSrc = .ok resyncToks ∧
    parseWithLog resyncToks = ([yDecl], 1) :=
  ⟨rfl, rfl⟩

/-- C3 as amended: on `let x = ; let y = 5;` the parser raises one
ParseError for the malformed first declaration but catches it inside
`Parser.statement` (discarding the statement and reporting nothing to the
caller), and still returns an AST containing the subsequent well-formed
declaration, which then executes normally (binding y to 5). -/
theorem C3_recovery_behavior :
    parse resyncToks = [yDecl] ∧
    (parseWithLog resyncToks).2 = 1 ∧
    interpretStmts 100 [yDecl] [] = (none, [("y", .NumberValue 5)]) :=
  ⟨rfl, rfl, rfl⟩

/-- C4: the claim asserts the full pipeline on the spec's factorial program
succeeds and the final call yields 120.  This theorem evaluates the code at
that failing input: the lexer (having no `<=` token) splits `<=` into LESS
and ASSIGN (see tokens 14-15 of `factorialToks`), the parser throws at the
ASSIGN inside the if-condition and its statement-level resynchronization
discards the function body, the else branch and the final call
(three caught ParseErrors), leaving `[fn factorial(n: number) -> number
with empty body]` - no type error is ever reported and interpretation
finishes without error, but no call expression exists, let alone one
evaluating to 120. -/
theorem C4_factorial_pipeline_result :
    tokenize factorialSrc = .ok factorialToks ∧
    parseWithLog factorialToks = (factorialAst, 3) ∧
    exceptOk (typeCheck factorialAst) = true ∧
    interpReport 100 factorialAst = none :=
  ⟨rfl, rfl, rfl, rfl⟩

/-- C5 counterexample: the claim quantifies over EVERY expression built from
number literals and the four arithmetic operators and asserts the
interpreter's result equals the host arithmetic result; at `1 / 0` the
interpreter instead throws the division-by-zero RuntimeError and produces
no number at all (while host IEEE arithmetic would produce Infinity - the
reference denotation is undefined there). -/
theorem C5_divzero_counterexample :
    evaluate 4 (.BinaryExpression (.NumberLiteral 1) .DIVIDE (.NumberLiteral 0)) []
      = (.error (.err .divisionByZero), []) ∧
    refEval (.BinaryExpression (.NumberLiteral 1) .DIVIDE (.NumberLiteral 0)) = none := by
  constructor
  · simp [evaluate, evaluateBinaryOp]
  · simp [refEval]

/-- C5 as amended: for every expression built from number literals and the
operators `+ - * /` in which no division by zero occurs (its reference
arithmetic value is defined), the type checker assigns the primitive type
number and the interpreter computes exactly the reference value, given fuel
at least the expression's size; and under the grammar's precedence
(multiplicative binds tighter than additive) the program `2 + 3 * 4;` lexes
and parses to `2 + (3 * 4)` and evaluates to 14. -/
theorem C5_arith_correct_except_divzero :
    (∀ (e : Expression) (q : ℚ) (env : Env) (n : Nat),
      refEval e = some q → esize e ≤ n →
      evaluate n e env = (.ok (.NumberValue q), env)) ∧
    (∀ (e : Expression) (q : ℚ) (st : CheckState),
      refEval e = some q → checkExpression e st = .ok (.PrimitiveType "number")) ∧
    (tokenize precSrc = .ok precToks ∧
     parse precToks = [.ExpressionStatement precExpr] ∧
     refEval precExpr = some 14 ∧
     evaluate 8 precExpr [] = (.ok (.NumberValue 14), [])) := by
  have h14 : refEval precExpr = some 14 := by
    simp [refEval, precExpr]
    norm_num
  refine ⟨fun e q env n h hs => evaluate_refEval n e q env h hs,
          fun e q st h => checkExpression_refEval (esize e) e q st h (Nat.le_refl _),
          rfl, rfl, h14, evaluate_refEval 8 precExpr 14 [] h14 (by decide)⟩

/-- C5 witness: the amended theorem applied at the concrete expression
`7` (reference value 7) and at the division-free parts of `2 + 3 * 4`. -/
theorem C5_witness :
    evaluate 1 (.NumberLiteral 7) [] = (.ok (.NumberValue 7), []) ∧
    checkExpression (.NumberLiteral 7) { scope := [], scopes := [] }
      = .ok (.PrimitiveType "number") :=
  ⟨C5_arith_correct_except_divzero.1 (.NumberLiteral 7) 7 [] 1 rfl (by decide),
   C5_arith_correct_except_divzero.2.1 (.NumberLiteral 7) 7 { scope := [], scopes := [] } rfl⟩

/-- C6: dividing any two number values `a / b` with `b = 0` throws the
division-by-zero RuntimeError - the result is an error, never an Infinity-
or NaN-like number value - both at the operator level and when evaluating
the corresponding binary expression on literals. -/
theorem C6_division_by_zero : ∀ (a b : ℚ), b = 0 →
    evaluateBinaryOp .DIVIDE (.NumberValue a) (.NumberValue b)
      = .error (.err .divisionByZero) ∧
    ∀ (n : Nat) (env : Env),
      evaluate (n + 2) (.BinaryExpression (.NumberLiteral a) .DIVIDE (.NumberLiteral b)) env
        = (.error (.err .divisionByZero), env) := by
  intro a b hb
  subst hb
  constructor
  · simp [evaluateBinaryOp]
  · intro n env
    simp [evaluate, evaluateBinaryOp]

/-- C6 witness: `5 / 0` throws the division-by-zero RuntimeError. -/
theorem C6_witness :
    evaluateBinaryOp .DIVIDE (.NumberValue 5) (.NumberValue 0)
      = .error (.err .divisionByZero) :=
  (C6_division_by_zero 5 0 rfl).1

/-- C7: a variable declaration with only a type annotation and no
initializer is accepted by the checker and binds the declared type in the
current scope; a declaration with neither annotation nor initializer always
fails with the cannot-infer TypeError. -/
theorem C7_variable_declaration_checking :
    ∀ (name : String) (t : Ty) (isC : Bool) (st : CheckState),
      checkStatement (.VariableDeclaration name (some t) none isC) st
        = .ok { st with scope := mapSet name t st.scope } ∧
      checkStatement (.VariableDeclaration name none none isC) st
        = .error (.cannotInfer name) :=
  fun _ _ _ _ => ⟨rfl, rfl⟩

/-- C8: executing an if-statement leaves every binding of the enclosing
environment exactly as it was at entry, for every condition, branches,
fuel and starting environment - the branch runs against a copy that
`executeBlock`'s finally discards, so neither declarations made inside the
branch nor reassignments of enclosing-scope variables are observable after
exit. -/
theorem C8_if_branch_scope_restored :
    ∀ (n : Nat) (condition : Expression) (thenBranch : List Statement)
      (elseBranch : Option (List Statement)) (env : Env),
      (execute n (.IfStatement condition thenBranch elseBranch) env).2 = env := by
  intro n c t e env
  cases n with
  | zero => rfl
  | succ m => exact executeIfStatement_env m c t e env

/-- C9: the checker's statement dispatch skips return statements entirely
(for every return statement and state it succeeds and leaves the state
unchanged, whatever the returned expression is), and consequently a
function whose returned value's type (string) differs from its declared
return type (number) passes typeCheck. -/
theorem C9_return_statements_unchecked :
    (∀ (v : Option Expression) (st : CheckState),
       checkStatement (.ReturnStatement v) st = .ok st) ∧
    typeCheck [badReturnFn]
      = .ok { scope := [("f", .FunctionType [] (.PrimitiveType "number"))], scopes := [] } :=
  ⟨fun _ _ => rfl, rfl⟩

/-- C10: executing a variable declaration with no initializer binds the
number value 0 in the current environment, whatever the declared type
annotation says (including string or boolean annotations), and reading the
variable afterwards yields that 0 rather than an error. -/
theorem C10_default_zero_initialization :
    ∀ (n : Nat) (name : String) (tyA : Option Ty) (isC : Bool) (env : Env),
      execute (n + 1) (.VariableDeclaration name tyA none isC) env
        = (none, mapSet name (.NumberValue 0) env) ∧
      evaluate (n + 1) (.Identifier name) (mapSet name (.NumberValue 0) env)
        = (.ok (.NumberValue 0), mapSet name (.NumberValue 0) env) := by
  intro n name tyA isC env
  constructor
  · rfl
  · simp [evaluate, lookupVariable, mapGet_mapSet_self]

end PP
